import Mathlib

/-!
Verification of the infra_agent repository's tool-calling core against its
natural-language specification.

The Lean definitions below are a shallow embedding of the Python source:

* `PyVal` models the Python/JSON values that flow through the system
  (strings, ints, bools, None, lists, dicts).
* The `OpenAI...` structures mirror the pydantic models of
  `src/infra_agent/models/ai.py` and `src/infra_agent/models/generic.py`.
* `router_tool_handler`, `closer_tool_handler`, `route_to_tool_list` and the
  tool catalogs mirror `src/infra_agent/providers/router.py`.
* `process_tool_call`, `handle_tool_calls`, `gpt_query` mirror
  `src/infra_agent/workers/ai.py`.  Exceptions that the Python code would
  let escape are modelled with `Except PyExc`; the LLM gateway
  (`__gpt_query`) is modelled as an oracle parameter, and Python's
  `json.loads` as a `loads` parameter (an `Except` valued function, error =
  `json.JSONDecodeError`).
* `redact_enc_values` mirrors `__redact_enc_values` of
  `src/infra_agent/providers/k8s.py`.
-/

namespace InfraAgent

mutual

/-- Python/JSON values: strings, integers, booleans, `None`, lists and
string-keyed dicts.  Lists and dicts are modelled as cons-lists
(`PyElems`, `PyFields`) so that all recursions are structural. -/
inductive PyVal : Type where
  | str (s : String)
  | int (n : Int)
  | bool (b : Bool)
  | null
  | list (elems : PyElems)
  | dict (fields : PyFields)

inductive PyElems : Type where
  | nil
  | cons (hd : PyVal) (tl : PyElems)

inductive PyFields : Type where
  | nil
  | cons (key : String) (val : PyVal) (tl : PyFields)

end

/-- Dict lookup, as Python `d[k]` / `d.get(k)` on the modelled dict. -/
def PyFields.lookup : PyFields → String → Option PyVal
  | PyFields.nil, _ => none
  | PyFields.cons k v tl, key => if k = key then some v else PyFields.lookup tl key

/-- The keys of a modelled dict, in insertion order (Python `d.keys()`). -/
def PyFields.keys : PyFields → List String
  | PyFields.nil => []
  | PyFields.cons k _ tl => k :: PyFields.keys tl

/-- A modelled list of strings, as read by pydantic when validating a
`List[str]` field; `none` when some element is not a string. -/
def PyElems.asStringList : PyElems → Option (List String)
  | PyElems.nil => some []
  | PyElems.cons (PyVal.str s) tl =>
      match PyElems.asStringList tl with
      | some rest => some (s :: rest)
      | none => none
  | PyElems.cons _ _ => none

mutual

/-- Python `repr` of a value (model: strings in single quotes without escape
handling, `True`/`False`/`None` capitalized). -/
def py_repr : PyVal → String
  | PyVal.str s => "'" ++ s ++ "'"
  | PyVal.int n => toString n
  | PyVal.bool b => if b then "True" else "False"
  | PyVal.null => "None"
  | PyVal.list es => "[" ++ py_repr_elems es ++ "]"
  | PyVal.dict fs => "\x7b" ++ py_repr_fields fs ++ "\x7d"

def py_repr_elems : PyElems → String
  | PyElems.nil => ""
  | PyElems.cons v PyElems.nil => py_repr v
  | PyElems.cons v tl => py_repr v ++ ", " ++ py_repr_elems tl

def py_repr_fields : PyFields → String
  | PyFields.nil => ""
  | PyFields.cons k v PyFields.nil => "'" ++ k ++ "': " ++ py_repr v
  | PyFields.cons k v tl => "'" ++ k ++ "': " ++ py_repr v ++ ", " ++ py_repr_fields tl

end

/-- Python `str` of a value: the raw text for strings, `repr` otherwise. -/
def py_str : PyVal → String
  | PyVal.str s => s
  | v => py_repr v

mutual

/-- The function json_dumps models `json.dumps` of a value (default
separators, no string escape handling). -/
def json_dumps : PyVal → String
  | PyVal.str s => "\"" ++ s ++ "\""
  | PyVal.int n => toString n
  | PyVal.bool b => if b then "true" else "false"
  | PyVal.null => "null"
  | PyVal.list es => "[" ++ json_dumps_elems es ++ "]"
  | PyVal.dict fs => "\x7b" ++ json_dumps_fields fs ++ "\x7d"

def json_dumps_elems : PyElems → String
  | PyElems.nil => ""
  | PyElems.cons v PyElems.nil => json_dumps v
  | PyElems.cons v tl => json_dumps v ++ ", " ++ json_dumps_elems tl

def json_dumps_fields : PyFields → String
  | PyFields.nil => ""
  | PyFields.cons k v PyFields.nil => "\"" ++ k ++ "\": " ++ json_dumps v
  | PyFields.cons k v tl => "\"" ++ k ++ "\": " ++ json_dumps v ++ ", " ++ json_dumps_fields tl

end

/-- Python truthiness of an optional string attribute (`None` and the empty
string are falsy). -/
def strTruthy : Option String → Bool
  | none => false
  | some s => !s.isEmpty

/-- One item of a tool parameter's array type (models/ai.py
`OpenAIToolParameterPropertyItems`). -/
structure OpenAIToolParameterPropertyItems where
  type : String := "string"
deriving Repr, DecidableEq

/-- A tool parameter property (models/ai.py `OpenAIToolParameterProperty`;
the unused alias fields `additional_properties` and `min_properties` keep
their `None` defaults throughout the repository and are omitted). -/
structure OpenAIToolParameterProperty where
  type : String := "string"
  enum : Option (List String) := none
  description : Option String := none
  items : Option OpenAIToolParameterPropertyItems := none
deriving Repr, DecidableEq

/-- A tool's parameter schema (models/ai.py `OpenAIToolParameter`);
`properties` is an insertion-ordered dict. -/
structure OpenAIToolParameter where
  type : String := "object"
  properties : List (String × OpenAIToolParameterProperty) := []
  required : List String := []
deriving Repr, DecidableEq

/-- A tool's function schema (models/ai.py `OpenAIFunction`). -/
structure OpenAIFunction where
  name : String
  description : String
  parameters : Option OpenAIToolParameter := none
deriving Repr, DecidableEq

/-- A tool definition (models/ai.py `OpenAITool`).  The bound `handler`
(`Callable | None`) is modelled separately by a name-indexed handler map
(see `Handlers`), so that the catalog stays first-order data. -/
structure OpenAITool where
  type : String := "function"
  function : OpenAIFunction
deriving Repr, DecidableEq

/-- The closer's outcome (models/generic.py `CaseSummary`; models/ai.py
`OpenAICaseSummary` declares the identical fields and is the same model
here). -/
structure CaseSummary where
  type : String := "case_summary"
  solved : Bool
  explanation : String
  missing_tools : Option (List String) := none
deriving Repr, DecidableEq

/-- The data of a raised `PromptToolError` (models/generic.py): the message
passed to `Exception.__init__`, the tool name, the handler inputs and the
optional underlying exception text.  The class defines `model_dump` but no
`model` method. -/
structure PromptToolError where
  message : String
  tool_name : String
  inputs : PyFields
  exception : Option String := none

/-- A successful tool handler's return value.  In the source these are:
the closer's `CaseSummary`, the router's plain Python `List[OpenAITool]`
(a list object, which has no `model_dump` attribute), or some other
pydantic model (carried as its `model_dump(exclude_none=True)` value). -/
inductive ToolResult where
  | caseSummary (c : CaseSummary)
  | toolList (ts : List OpenAITool)
  | modelVal (dump : PyVal)

/-- What a tool handler call returns in the model: a result value, a raised
`PromptToolError`, or any other raised exception (carried as text). -/
inductive HandlerOutcome where
  | ok (result : ToolResult)
  | toolError (e : PromptToolError)
  | exc (message : String)

/-- Python truthiness of a handler result: pydantic model instances are
truthy, a list is truthy iff non-empty. -/
def ToolResult.truthy : ToolResult → Bool
  | ToolResult.caseSummary _ => true
  | ToolResult.toolList ts => !ts.isEmpty
  | ToolResult.modelVal _ => true

/-- A list of strings as a modelled Python list. -/
def strsToElems : List String → PyElems
  | [] => PyElems.nil
  | s :: rest => PyElems.cons (PyVal.str s) (strsToElems rest)

/-- `model_dump(exclude_none=True)` of a `CaseSummary`. -/
def CaseSummary.dump (c : CaseSummary) : PyVal :=
  PyVal.dict
    (PyFields.cons "type" (PyVal.str c.type)
      (PyFields.cons "solved" (PyVal.bool c.solved)
        (PyFields.cons "explanation" (PyVal.str c.explanation)
          (match c.missing_tools with
           | none => PyFields.nil
           | some ms => PyFields.cons "missing_tools" (PyVal.list (strsToElems ms)) PyFields.nil))))

/-- `result.model_dump(exclude_none=True)`: defined for pydantic models,
an `AttributeError` (modelled as `Except.error` with the error text) for
the router's plain list. -/
def ToolResult.model_dump : ToolResult → Except String PyVal
  | ToolResult.caseSummary c => Except.ok c.dump
  | ToolResult.modelVal d => Except.ok d
  | ToolResult.toolList _ =>
      Except.error "AttributeError: 'list' object has no attribute 'model_dump'"

/-- A tool with no parameter schema. -/
def mkTool (name description : String) : OpenAITool :=
  { function := { name := name, description := description } }

/-- A tool with a parameter schema (typed properties and required names). -/
def mkToolP (name description : String)
    (props : List (String × OpenAIToolParameterProperty)) (req : List String) : OpenAITool :=
  { function :=
      { name := name, description := description,
        parameters := some { properties := props, required := req } } }

/-- A string-typed parameter property with a description. -/
def strProp (d : String) : OpenAIToolParameterProperty := { description := some d }

/-- An integer-typed parameter property with a description. -/
def intProp (d : String) : OpenAIToolParameterProperty :=
  { type := "integer", description := some d }

/-- The "gitlab" tool group of providers/router.py `_route_to_tool_list`. -/
def gitlab_tools : List OpenAITool :=
  [ mkTool "list_opened_merge_requests"
      "List opened merge requests in Gitlab project consisting of Helmfile based Helm releases",
    mkToolP "get_merge_request_details" "Get details of a specific merge request by its ID"
      [("mr_id", intProp "Merge request id")] ["mr_id"],
    mkToolP "update_file_and_push" "Update a file in a branch and push the changes"
      [("branch", strProp "Name of the branch to update"),
       ("file_path", strProp "Path to the file to update"),
       ("content", strProp "New content for the file"),
       ("commit_message", strProp "Commit message for the update")]
      ["branch", "file_path", "content", "commit_message"],
    mkToolP "create_merge_request_from_branch"
      "Create a merge request from a branch to the default branch"
      [("source_branch", strProp "Name of the source branch"),
       ("target_branch", strProp "Name of the target branch"),
       ("title", strProp "Title of the merge request"),
       ("description", strProp "Description of the merge request")]
      ["source_branch", "target_branch", "title", "description"],
    mkToolP "approve_merge_request" "Approve a merge request by its ID"
      [("mr_id", intProp "Merge request id")] ["mr_id"],
    mkToolP "get_file_contents" "Get file contents from repository, branch, and path"
      [("branch", strProp "Branch name"),
       ("file_path", strProp "Path to the file in the repository")]
      ["branch", "file_path"],
    mkToolP "list_files_in_repository"
      "List files in a repository at a specific branch and path"
      [("branch", strProp "Branch name"),
       ("path", strProp "Path in the repository to list files from")]
      ["branch"] ]

/-- The "grafana" tool group of providers/router.py `_route_to_tool_list`. -/
def grafana_tools : List OpenAITool :=
  [ mkToolP "get_pod_container_cpu_usage"
      "Get Kubernetes pod container cpu usage from Prometheus- returns dict(timestamp, datapoint)"
      [("namespace", strProp "Pod namespace"),
       ("pod_name", strProp "Pod name"),
       ("container_name", strProp "Pod's container name")]
      ["namespace", "pod_name", "container_name"],
    mkToolP "get_pod_container_memory_usage"
      "Get Kubernetes pod container memory usage from Prometheus- returns dict(timestamp, datapoint)"
      [("namespace", strProp "Pod namespace"),
       ("pod_name", strProp "Pod name"),
       ("container_name", strProp "Pod's container name")]
      ["namespace", "pod_name", "container_name"],
    mkToolP "get_node_cpu_usage"
      "Get node cpu usage from Prometheus- returns dict(timestamp, datapoint)"
      [("node_name", strProp "Node name")] ["node_name"],
    mkToolP "get_node_memory_usage"
      "Get node memory usage from Prometheus- returns dict(timestamp, datapoint)"
      [("node_name", strProp "Node name")] ["node_name"],
    mkTool "list_grafana_alerts" "Get list of current Grafana alerts" ]

/-- The "kubernetes" tool group of providers/router.py `_route_to_tool_list`
(`get_node_resources` is commented out in the source). -/
def kubernetes_tools : List OpenAITool :=
  [ mkToolP "get_pod_logs" "Get Kubernetes pod container logs"
      [("namespace", strProp "Pod namespace"),
       ("pod_name", strProp "Pod name"),
       ("container_name", strProp "Pod's container name ")]
      ["namespace", "pod_name", "container_name"],
    mkToolP "list_pods_by_namespace" "List Kubernetes pods"
      [("namespace", strProp "Pod namespace")] ["namespace"],
    mkToolP "delete_pod" "Delete specified pod"
      [("namespace", strProp "Pod namespace"), ("pod_name", strProp "Pod name")]
      ["namespace", "pod_name"],
    mkToolP "get_pod_details" "Gets pod spec and status details"
      [("namespace", strProp "Pod namespace"), ("pod_name", strProp "Pod name")]
      ["namespace", "pod_name"],
    mkTool "list_namespaces" "List all Kubernetes namespaces",
    mkTool "list_nodes" "List all Kubernetes nodes",
    mkToolP "list_pod_containers" "List all containers within a pod"
      [("namespace", strProp "Pod namespace"), ("pod_name", strProp "Pod name")]
      ["namespace", "pod_name"],
    mkToolP "list_node_pods" "Get Kubernetes pod resources and limits"
      [("node_name", strProp "Node name")] ["node_name"],
    mkToolP "get_pod_helm_release_metadata" "Gets latest Helm release metadata for a given pod"
      [("namespace", strProp "Pod namespace"), ("pod_name", strProp "Pod name")]
      ["namespace", "pod_name"] ]

/-- providers/router.py `_route_to_tool_list`: the category-name-keyed dict
of tool groups, in insertion order. -/
def route_to_tool_list_entries : List (String × List OpenAITool) :=
  [("gitlab", gitlab_tools), ("grafana", grafana_tools), ("kubernetes", kubernetes_tools)]

/-- providers/router.py `tool_categories = list(_route_to_tool_list.keys())`. -/
def tool_categories : List String := route_to_tool_list_entries.map Prod.fst

/-- `_route_to_tool_list.get(category, [])`. -/
def route_to_tool_list (category : String) : List OpenAITool :=
  match route_to_tool_list_entries.lookup category with
  | some ts => ts
  | none => []

/-- providers/router.py `_router_tool(category: str)`, called with the
keyword-expanded parsed arguments: an unknown (or non-string) `category`
raises `PromptToolError("No such category found", tool_name="route_tools")`;
a known one returns the group, a Python `list` object.  Calling with
missing or unexpected keyword arguments raises `TypeError`. -/
def router_tool_handler (kwargs : PyFields) : HandlerOutcome :=
  if kwargs.keys = ["category"] then
    match kwargs.lookup "category" with
    | some (PyVal.str c) =>
        if tool_categories.contains c then
          HandlerOutcome.ok (ToolResult.toolList (route_to_tool_list c))
        else
          HandlerOutcome.toolError
            { message := "No such category found", tool_name := "route_tools", inputs := kwargs }
    | some _ =>
        HandlerOutcome.toolError
          { message := "No such category found", tool_name := "route_tools", inputs := kwargs }
    | none => HandlerOutcome.exc "TypeError: missing required argument 'category'"
  else HandlerOutcome.exc "TypeError: unexpected keyword arguments"

/-- providers/router.py `_closer_tool(solved, explanation, missing_tools=None)`,
called with the keyword-expanded parsed arguments.  It builds
`CaseSummary(solved=solved, explanation=explanation, missing_tools=missing_tools or [])`;
pydantic validation failure (a wrongly-typed field; coercions are modelled
strictly) raises an ordinary exception, and missing or unexpected keyword
arguments raise `TypeError`. -/
def closer_tool_handler (kwargs : PyFields) : HandlerOutcome :=
  if !(kwargs.keys.all fun k => (["solved", "explanation", "missing_tools"] : List String).contains k) then
    HandlerOutcome.exc "TypeError: unexpected keyword arguments"
  else
    match kwargs.lookup "solved", kwargs.lookup "explanation" with
    | some (PyVal.bool b), some (PyVal.str e) =>
        (match kwargs.lookup "missing_tools" with
         | none =>
             HandlerOutcome.ok (ToolResult.caseSummary
               { solved := b, explanation := e, missing_tools := some [] })
         | some PyVal.null =>
             HandlerOutcome.ok (ToolResult.caseSummary
               { solved := b, explanation := e, missing_tools := some [] })
         | some (PyVal.list xs) =>
             (match xs.asStringList with
              | some ms =>
                  HandlerOutcome.ok (ToolResult.caseSummary
                    { solved := b, explanation := e, missing_tools := some ms })
              | none => HandlerOutcome.exc "ValidationError: missing_tools elements must be strings")
         | some _ => HandlerOutcome.exc "ValidationError: missing_tools must be a list or None")
    | some _, some _ => HandlerOutcome.exc "ValidationError: wrongly typed field"
    | _, _ => HandlerOutcome.exc "TypeError: missing required arguments"

/-- providers/router.py `router = OpenAITool(...)`: the router tool's schema. -/
def router : OpenAITool :=
  mkToolP "route_intent" "Route user requests to the correct tool group."
    [("category",
      { description := some "Category of the tools to route to", enum := some tool_categories })]
    ["category"]

/-- providers/router.py `closer = OpenAITool(...)`: the closer tool's schema. -/
def closer : OpenAITool :=
  mkToolP "finish_reasoning"
    "Run the function to finish the case and provide final answer to the user."
    [("solved",
      { type := "boolean",
        description := some "Information for user if the case was solved successfully" }),
     ("explanation",
      { type := "string",
        description := some "Explanation message for the user about the case resolution" }),
     ("missing_tools",
      { type := "array",
        description := some "List of tools that would be useful to solve the case, but are not available",
        items := some {} })]
    ["solved", "explanation"]

/-- A name-indexed map from a tool's function name to its bound handler
(models the `handler` field of `OpenAITool`, kept out of the first-order
catalog data). -/
def Handlers : Type := String → Option (PyFields → HandlerOutcome)

/-- The handlers bound in providers/router.py to the router and closer tools.
The domain tools' handlers (Kubernetes/GitLab/Grafana API wrappers) are
external collaborators and are not modelled. -/
def repo_handlers : Handlers := fun name =>
  if name = "route_intent" then some router_tool_handler
  else if name = "finish_reasoning" then some closer_tool_handler
  else none

/-- Modelled from the spec: workers/ai.py does
`from infra_agent.providers.router import closer, tools`, but no definition
of `tools` appears in the repository's files.  Per the spec (section 4.3,
gated mode) "only the router tool and the closer tool are active at session
start", so the module-level active tool list is modelled as the router and
the closer. -/
def tools : List OpenAITool := [router, closer]

/-- A function-call request emitted by the model (models/ai.py
`OpenAIFunctionCall`): the function name and the JSON-encoded argument
string. -/
structure OpenAIFunctionCall where
  arguments : String
  name : String
  type : String := "function"
deriving Repr, DecidableEq

/-- A tool call (models/ai.py `OpenAIToolCall`); `result` is attached
in place by the dispatcher (`tool_call.result = tool_result`). -/
structure OpenAIToolCall where
  type : String := "function"
  id : String
  function : OpenAIFunctionCall
  result : Option ToolResult := none

/-- A conversation message (models/ai.py `OpenAIMessage`). -/
structure OpenAIMessage where
  role : String
  name : Option String := none
  content : Option String := none
  tool_calls : Option (List OpenAIToolCall) := none
  tool_call_id : Option String := none
  tool_call_arguments : Option String := none

/-- The session summary returned by `gpt_query` (models/ai.py
`OpenAIPromptSummary`, with `data : OpenAICaseSummary | None`). -/
structure OpenAIPromptSummary where
  data : Option CaseSummary := none
  messages : List OpenAIMessage
  resolved : Bool

/-- An exception escaping the Python code, as the caller would observe it. -/
inductive PyExc where
  | jsonDecodeError (message : String)
  | attributeError (message : String)
  | keyError (key : String)
  | typeError (message : String)
  | validationError (message : String)
deriving Repr, DecidableEq

/-- The "tool not found in router" message (workers/ai.py lines 166-175). -/
def tool_not_found_message (tc : OpenAIToolCall) : OpenAIMessage :=
  { role := "tool", name := some tc.function.name,
    content := some "Tool not found in router", tool_call_id := some tc.id }

/-- The "no handler defined" message (workers/ai.py lines 155-164). -/
def no_handler_message (tc : OpenAIToolCall) : OpenAIMessage :=
  { role := "tool", name := some tc.function.name,
    content := some "No handler defined for tool", tool_call_id := some tc.id }

/-- The generic handler-failure message (workers/ai.py lines 143-154). -/
def tool_problem_message (tc : OpenAIToolCall) (excText : String) : OpenAIMessage :=
  { role := "tool", name := some tc.function.name,
    content := some ("There was a problem calling the tool! " ++ excText),
    tool_call_id := some tc.id }

/-- The bookkeeping tool message appended for a successfully-processed
closer call (workers/ai.py lines 99-106): no content, the call's raw
argument string attached. -/
def closer_bookkeeping_message (tc : OpenAIToolCall) : OpenAIMessage :=
  { role := "tool", name := some tc.function.name, tool_call_id := some tc.id,
    tool_call_arguments := some tc.function.arguments }

/-- The parameter lines of the result-dump message (workers/ai.py line
122-124). -/
def render_params : PyFields → String
  | PyFields.nil => ""
  | PyFields.cons k v PyFields.nil => "  - '" ++ k ++ "' = '" ++ py_str v ++ "'"
  | PyFields.cons k v tl =>
      "  - '" ++ k ++ "' = '" ++ py_str v ++ "'\n" ++ render_params tl

/-- The full result-dump tool message appended for a successful non-closer
call (workers/ai.py lines 108-132). -/
def tool_result_message (tc : OpenAIToolCall) (parsed : PyFields) (dumpText : String) :
    OpenAIMessage :=
  { role := "tool", name := some tc.function.name,
    content := some ("\nTool named " ++ tc.function.name ++ " was called with parameters:\n"
      ++ render_params parsed ++ "\nit's result was:\n```\n" ++ dumpText ++ "\n```\n"),
    tool_call_id := some tc.id, tool_call_arguments := some tc.function.arguments }

/-- Processing of one tool call by `_handle_tool_calls` (workers/ai.py lines
86-175), producing the one appended message, the call as mutated
(`result` attached on handler success) and whether the closer early-return
was taken — or the exception the Python code would raise.

Faithful to the source:
* line 87 `json.loads` stands outside any `try`, so a parse failure is a
  raised `json.JSONDecodeError`;
* a raised `PromptToolError` reaches line 139 `exc.model().error`, and
  `PromptToolError` defines no `model` attribute (models/generic.py defines
  only `model_dump`), so an `AttributeError` is raised from inside the
  `except` clause and propagates;
* any other handler exception yields the generic problem message;
* on success, `tool_call.result` is attached, then either the closer
  early-return or the result-dump message, where dumping the router's plain
  `list` result raises `AttributeError` inside the `try` (caught, generic
  problem message — with `result` already attached). -/
def process_core (loads : String → Except String PyVal) (handlers : Handlers)
    (ts : List OpenAITool) (tc : OpenAIToolCall) :
    Except PyExc (OpenAIMessage × OpenAIToolCall × Bool) :=
  match loads tc.function.arguments with
  | Except.error e => Except.error (PyExc.jsonDecodeError e)
  | Except.ok parsed =>
    match ts.find? (fun t => t.function.name == tc.function.name) with
    | none => Except.ok (tool_not_found_message tc, tc, false)
    | some t =>
      match handlers t.function.name with
      | none => Except.ok (no_handler_message tc, tc, false)
      | some h =>
        match parsed with
        | PyVal.dict fs =>
          (match h fs with
           | HandlerOutcome.toolError _ =>
               Except.error
                 (PyExc.attributeError "'PromptToolError' object has no attribute 'model'")
           | HandlerOutcome.exc m => Except.ok (tool_problem_message tc m, tc, false)
           | HandlerOutcome.ok r =>
             let tc' : OpenAIToolCall := { tc with result := some r }
             if tc.function.name == closer.function.name then
               Except.ok (closer_bookkeeping_message tc, tc', true)
             else
               match (if r.truthy then r.model_dump else Except.ok (PyVal.dict PyFields.nil)) with
               | Except.ok dumpVal =>
                   Except.ok (tool_result_message tc fs (json_dumps dumpVal), tc', false)
               | Except.error m => Except.ok (tool_problem_message tc m, tc', false))
        | _ =>
            Except.ok
              (tool_problem_message tc "TypeError: argument of type 'NoneType' is not a mapping",
               tc, false)

/-- One step of the dispatcher against a message list: appends the one
synthesized message. -/
def process_tool_call (loads : String → Except String PyVal) (handlers : Handlers)
    (ts : List OpenAITool) (messages : List OpenAIMessage) (tc : OpenAIToolCall) :
    Except PyExc (List OpenAIMessage × OpenAIToolCall × Bool) :=
  match process_core loads handlers ts tc with
  | Except.error e => Except.error e
  | Except.ok (m, tc', stop) => Except.ok (messages ++ [m], tc', stop)

/-- workers/ai.py `_handle_tool_calls`: sequential dispatch of one assistant
turn's tool calls, returning the grown message list and the batch with the
processed calls' mutations; processing stops right after a
successfully-processed closer call (`return messages`, line 107), leaving
later calls untouched. -/
def handle_tool_calls (loads : String → Except String PyVal) (handlers : Handlers)
    (ts : List OpenAITool) (messages : List OpenAIMessage) :
    List OpenAIToolCall → Except PyExc (List OpenAIMessage × List OpenAIToolCall)
  | [] => Except.ok (messages, [])
  | tc :: rest =>
    match process_tool_call loads handlers ts messages tc with
    | Except.error e => Except.error e
    | Except.ok (ms, tc', stop) =>
      if stop then Except.ok (ms, tc' :: rest)
      else
        match handle_tool_calls loads handlers ts ms rest with
        | Except.error e => Except.error e
        | Except.ok (ms', rest') => Except.ok (ms', tc' :: rest')

/-- `OpenAICaseSummary.model_validate` on a parsed value (pydantic,
modelled strictly: required `solved: bool` and `explanation: str`,
optional `missing_tools: List[str] | None`, extra fields ignored). -/
def model_validate_case_summary (v : PyVal) : Except String CaseSummary :=
  match v with
  | PyVal.dict fs =>
    (match fs.lookup "solved", fs.lookup "explanation" with
     | some (PyVal.bool b), some (PyVal.str e) =>
       (match fs.lookup "missing_tools" with
        | none => Except.ok { solved := b, explanation := e }
        | some PyVal.null => Except.ok { solved := b, explanation := e }
        | some (PyVal.list xs) =>
          (match xs.asStringList with
           | some ms => Except.ok { solved := b, explanation := e, missing_tools := some ms }
           | none => Except.error "ValidationError: missing_tools elements must be strings")
        | some _ => Except.error "ValidationError: missing_tools must be a list or None")
     | _, _ => Except.error "ValidationError: solved and explanation are required")
  | _ => Except.error "ValidationError: value is not an object"

/-- The transcript of the closer-return summary (workers/ai.py line 227):
`messages[2:]` with tool messages and content-less messages dropped. -/
def transcript_from_two (messages : List OpenAIMessage) : List OpenAIMessage :=
  (messages.drop 2).filter (fun m => m.role != "tool" && strTruthy m.content)

/-- The transcript of the no-first-response summary (workers/ai.py lines
201-205): non-tool, non-developer messages with content, then `[1:]`. -/
def transcript_tail (messages : List OpenAIMessage) : List OpenAIMessage :=
  ((messages.filter
    (fun m => !((["function", "tool", "developer"] : List String).contains m.role)
      && strTruthy m.content)).drop 1)

/-- The first closer-named tool call found walking every message's
`tool_calls or []` in order (workers/ai.py lines 216-217). -/
def find_closer_call : List OpenAIMessage → Option OpenAIToolCall
  | [] => none
  | m :: rest =>
    match (m.tool_calls.getD []).find? (fun c => c.function.name == closer.function.name) with
    | some c => some c
    | none => find_closer_call rest

/-- workers/ai.py lines 216-229: scan the whole history for a closer-named
call; build the terminal summary from its attached result.  Validating a
result that is not a pydantic case summary raises (lines 218-219 stand
outside any `try`). -/
def scan_messages_for_closer (messages : List OpenAIMessage) :
    Except PyExc (Option OpenAIPromptSummary) :=
  match find_closer_call messages with
  | none => Except.ok none
  | some call =>
    match call.result with
    | none =>
        Except.ok (some { data := none, messages := transcript_from_two messages, resolved := false })
    | some r =>
      match r.model_dump with
      | Except.error m => Except.error (PyExc.attributeError m)
      | Except.ok d =>
        match model_validate_case_summary d with
        | Except.error m => Except.error (PyExc.validationError m)
        | Except.ok cs =>
            Except.ok (some
              { data := some cs, messages := transcript_from_two messages, resolved := cs.solved })

/-- The in-place mutation of the dispatched batch reflected into the
assistant message that carried it: `tool_calls = response_message.tool_calls
or []` aliases the message's own list exactly when that list is non-empty
(`or` returns a fresh `[]` otherwise), so the dispatcher's `result`
attachments are visible through the last appended assistant message. -/
def update_last_tool_calls (messages : List OpenAIMessage) (batch : List OpenAIToolCall) :
    List OpenAIMessage :=
  if batch.isEmpty then messages
  else
    match messages.getLast? with
    | none => messages
    | some last => messages.dropLast ++ [{ last with tool_calls := some batch }]

/-- The corrective user message of workers/ai.py lines 248-253. -/
def corrective_user_message : OpenAIMessage :=
  { role := "user",
    content := some ("Use provided tools to solve the task, do not ask for permissions, just do things! If all other options are exhausted, run `"
      ++ closer.function.name ++ "` and provide appropriate parameters!") }

/-- The model gateway `__gpt_query` as an oracle: from the message history
and the tool list, the assistant message, or `None` on a rate-limit or
bad-request rejection. -/
def Gateway : Type := List OpenAIMessage → List OpenAITool → Option OpenAIMessage

/-- One recorded gateway invocation (ghost data: what history and which
tool list each `__gpt_query(messages, model, tools)` call received). -/
structure GatewayCall where
  messages : List OpenAIMessage
  tools : List OpenAITool

/-- The observable result of a `gpt_query` run: the returned summary
(`none` when the modelled fuel ran out with the `while` loop still
running), the final contents of the `messages` list object, and the ghost
log of gateway invocations. -/
structure RunResult where
  summary : Option OpenAIPromptSummary
  messages : List OpenAIMessage
  calls : List GatewayCall

/-- The `while not case_solved` loop of workers/ai.py `gpt_query` (lines
214-260), entered with the current batch of tool calls; `fuel` bounds the
number of iterations modelled. -/
def gpt_loop (oracle : Gateway) (loads : String → Except String PyVal) (handlers : Handlers)
    (ts : List OpenAITool) :
    Nat → List OpenAIMessage → List OpenAIToolCall → List GatewayCall → Except PyExc RunResult
  | 0, messages, _, log => Except.ok { summary := none, messages := messages, calls := log }
  | Nat.succ fuel, messages, tool_calls, log =>
    match handle_tool_calls loads handlers ts messages tool_calls with
    | Except.error e => Except.error e
    | Except.ok (ms0, batch) =>
      let messages := update_last_tool_calls messages batch ++ ms0.drop messages.length
      match scan_messages_for_closer messages with
      | Except.error e => Except.error e
      | Except.ok (some summary) =>
          Except.ok { summary := some summary, messages := messages, calls := log }
      | Except.ok none =>
        let log := log ++ [{ messages := messages, tools := ts }]
        match oracle messages ts with
        | none =>
            Except.ok { summary := some { messages := [], resolved := false },
                        messages := messages, calls := log }
        | some response =>
          let messages := messages ++ [response]
          let tcs := response.tool_calls.getD []
          if tcs.isEmpty then
            match loads (response.content.getD "") with
            | Except.ok v =>
              (match v with
               | PyVal.dict fs =>
                 (match fs.lookup "arguments" with
                  | none => Except.error (PyExc.keyError "arguments")
                  | some a =>
                    match model_validate_case_summary a with
                    | Except.error m => Except.error (PyExc.validationError m)
                    | Except.ok s =>
                      let messages := messages ++ [{ role := "assistant", content := response.content }]
                      Except.ok { summary := some { data := some s, messages := [], resolved := s.solved },
                                  messages := messages, calls := log })
               | _ => Except.error (PyExc.typeError "indices must be integers"))
            | Except.error _ =>
              let messages := messages ++ [corrective_user_message]
              let log := log ++ [{ messages := messages, tools := ts }]
              match oracle messages ts with
              | none =>
                  Except.ok { summary := some { messages := [], resolved := false },
                              messages := messages, calls := log }
              | some r2 =>
                let messages := messages ++ [r2]
                gpt_loop oracle loads handlers ts fuel messages (r2.tool_calls.getD []) log
          else gpt_loop oracle loads handlers ts fuel messages tcs log

/-- workers/ai.py `gpt_query` (lines 179-268), the session entrypoint.
Template formatting (`str.format`) is modelled as the identity on the given
prompt strings; the mutable default of the `messages` parameter is modelled
by passing the shared list explicitly and reading it back from
`RunResult.messages`. -/
def gpt_query (oracle : Gateway) (loads : String → Except String PyVal) (handlers : Handlers)
    (ts : List OpenAITool) (fuel : Nat)
    (prompt : String) (system_prompt : Option String)
    (messages : List OpenAIMessage) : Except PyExc RunResult :=
  let messages :=
    if messages.isEmpty && strTruthy system_prompt then
      messages ++ [{ role := "developer", content := system_prompt }]
    else messages
  let messages := messages ++ [{ role := "user", content := some prompt }]
  let log : List GatewayCall := [{ messages := messages, tools := ts }]
  match oracle messages ts with
  | none =>
      Except.ok { summary := some { messages := transcript_tail messages, resolved := false },
                  messages := messages, calls := log }
  | some response =>
      let messages := messages ++ [response]
      gpt_loop oracle loads handlers ts fuel messages (response.tool_calls.getD []) log

/-- Python `s.startswith(pre)`, modelled on the character lists so that it
evaluates inside the kernel (`String.startsWith` is defined by well-founded
recursion and does not reduce). -/
def startswith (s pre : String) : Bool := pre.data.isPrefixOf s.data

/-- The redaction predicate of providers/k8s.py `__redact_enc_values`
(lines 78, 86): `isinstance(v, str) and v.startswith("ENC")`. -/
def is_enc (v : PyVal) : Bool :=
  match v with
  | PyVal.str s => startswith s "ENC"
  | _ => false

mutual

/-- providers/k8s.py `__redact_enc_values` (lines 68-106): recursively walk
dicts, lists and the top-level string; replace every string value starting
with "ENC" by the literal "redacted"; otherwise recurse (the in-place
mutation is modelled by returning the rewritten structure; the
`hasattr(obj, "__dict__")` branch for API objects is outside the modelled
value type, and other leaves are returned unchanged). -/
def redact_enc_values : PyVal → PyVal
  | PyVal.dict fs => PyVal.dict (redact_fields fs)
  | PyVal.list es => PyVal.list (redact_elems es)
  | PyVal.str s => if startswith s "ENC" then PyVal.str "redacted" else PyVal.str s
  | PyVal.int n => PyVal.int n
  | PyVal.bool b => PyVal.bool b
  | PyVal.null => PyVal.null

/-- The list branch (lines 84-90): replace "ENC"-prefixed string elements,
recurse into the rest. -/
def redact_elems : PyElems → PyElems
  | PyElems.nil => PyElems.nil
  | PyElems.cons v tl =>
      PyElems.cons (if is_enc v then PyVal.str "redacted" else redact_enc_values v)
        (redact_elems tl)

/-- The dict branch (lines 75-82): replace "ENC"-prefixed string values,
recurse into the rest; keys are not touched. -/
def redact_fields : PyFields → PyFields
  | PyFields.nil => PyFields.nil
  | PyFields.cons k v tl =>
      PyFields.cons k (if is_enc v then PyVal.str "redacted" else redact_enc_values v)
        (redact_fields tl)

end

mutual

/-- Every string value reachable in a value: the top-level string, dict
values and list elements, recursively (dict keys are not values). -/
def val_strings : PyVal → List String
  | PyVal.str s => [s]
  | PyVal.int _ => []
  | PyVal.bool _ => []
  | PyVal.null => []
  | PyVal.list es => elems_strings es
  | PyVal.dict fs => fields_strings fs

def elems_strings : PyElems → List String
  | PyElems.nil => []
  | PyElems.cons v tl => val_strings v ++ elems_strings tl

def fields_strings : PyFields → List String
  | PyFields.nil => []
  | PyFields.cons _ v tl => val_strings v ++ fields_strings tl

end

/-- The pointwise string rewrite the redaction walk is claimed to apply:
an "ENC"-prefixed string becomes the literal "redacted", any other string
is unchanged. -/
def redact_string (s : String) : String :=
  if startswith s "ENC" then "redacted" else s

mutual

/-- The structure-preserving map rewriting exactly the reachable string
values by `redact_string` and leaving every non-string leaf, every key and
the whole shape unchanged. -/
def map_strings : PyVal → PyVal
  | PyVal.str s => PyVal.str (redact_string s)
  | PyVal.int n => PyVal.int n
  | PyVal.bool b => PyVal.bool b
  | PyVal.null => PyVal.null
  | PyVal.list es => PyVal.list (map_strings_elems es)
  | PyVal.dict fs => PyVal.dict (map_strings_fields fs)

def map_strings_elems : PyElems → PyElems
  | PyElems.nil => PyElems.nil
  | PyElems.cons v tl => PyElems.cons (map_strings v) (map_strings_elems tl)

def map_strings_fields : PyFields → PyFields
  | PyFields.nil => PyFields.nil
  | PyFields.cons k v tl => PyFields.cons k (map_strings v) (map_strings_fields tl)

end

/-- A finite model of Python `json.loads`, accurate on the strings used in
the concrete runs below: the listed object literals parse to their dicts,
every other string raises `json.JSONDecodeError` ("Expecting value"). -/
def loads_demo (s : String) : Except String PyVal :=
  if s = "\x7b\"category\": \"kubernetes\"\x7d" then
    Except.ok (PyVal.dict (PyFields.cons "category" (PyVal.str "kubernetes") PyFields.nil))
  else if s = "\x7b\"category\": \"dns\"\x7d" then
    Except.ok (PyVal.dict (PyFields.cons "category" (PyVal.str "dns") PyFields.nil))
  else if s = "\x7b\"solved\": true, \"explanation\": \"done\"\x7d" then
    Except.ok (PyVal.dict (PyFields.cons "solved" (PyVal.bool true)
      (PyFields.cons "explanation" (PyVal.str "done") PyFields.nil)))
  else if s = "\x7b\"solved\": true, \"explanation\": \"\"\x7d" then
    Except.ok (PyVal.dict (PyFields.cons "solved" (PyVal.bool true)
      (PyFields.cons "explanation" (PyVal.str "") PyFields.nil)))
  else if s = "\x7b\"arguments\": \x7b\"solved\": true, \"explanation\": \"done\"\x7d\x7d" then
    Except.ok (PyVal.dict (PyFields.cons "arguments"
      (PyVal.dict (PyFields.cons "solved" (PyVal.bool true)
        (PyFields.cons "explanation" (PyVal.str "done") PyFields.nil))) PyFields.nil))
  else Except.error "Expecting value: line 1 column 1 (char 0)"

/-- The user message `gpt_query` appends for a prompt. -/
def user_message (p : String) : OpenAIMessage := { role := "user", content := some p }

/-- An assistant response carrying the given tool calls. -/
def assistant_with (tcs : List OpenAIToolCall) (c : Option String) : OpenAIMessage :=
  { role := "assistant", content := c, tool_calls := some tcs }

/-- An assistant response with plain content and no tool calls. -/
def assistant_text (c : String) : OpenAIMessage := { role := "assistant", content := some c }

/-- A tool call whose JSON argument string does not parse. -/
def call_bad_args : OpenAIToolCall :=
  { id := "call_bad", function := { arguments := "not json", name := "route_intent" } }

/-- A router call with an unknown category. -/
def call_dns : OpenAIToolCall :=
  { id := "call_dns", function := { arguments := "\x7b\"category\": \"dns\"\x7d", name := "route_intent" } }

/-- A router call asking for the kubernetes tool group. -/
def call_kube : OpenAIToolCall :=
  { id := "call_kube",
    function := { arguments := "\x7b\"category\": \"kubernetes\"\x7d", name := "route_intent" } }

/-- A well-formed closer call (`solved=true, explanation="done"`). -/
def call_finish : OpenAIToolCall :=
  { id := "call_finish",
    function := { arguments := "\x7b\"solved\": true, \"explanation\": \"done\"\x7d",
                  name := "finish_reasoning" } }

/-- A well-formed closer call with an empty explanation. -/
def call_finish_empty : OpenAIToolCall :=
  { id := "call_finish_empty",
    function := { arguments := "\x7b\"solved\": true, \"explanation\": \"\"\x7d",
                  name := "finish_reasoning" } }

/-- A gateway that answers the first query with a tool call whose argument
string does not parse, and nothing afterwards. -/
def oracle_bad_args : Gateway := fun ms _ =>
  if ms.length = 1 then some (assistant_with [call_bad_args] none) else none

/-- A gateway that answers the first query with a router call for the
kubernetes group, and fails on every later query. -/
def oracle_route_kube : Gateway := fun ms _ =>
  if ms.length = 1 then some (assistant_with [call_kube] none) else none

/-- A gateway that answers the first query with a closer call carrying an
empty explanation. -/
def oracle_finish_empty : Gateway := fun ms _ =>
  if ms.length = 1 then some (assistant_with [call_finish_empty] none) else none

/-- A gateway producing two consecutive assistant turns with zero tool
calls, then a proper closer call: query 1 (one message in history) and
query 2 (two messages) get plain text; query 3 (four messages, after the
corrective user message) gets the closer call. -/
def oracle_two_textual : Gateway := fun ms _ =>
  if ms.length = 1 then some (assistant_text "thinking")
  else if ms.length = 2 then some (assistant_text "still thinking")
  else if ms.length = 4 then some (assistant_with [call_finish] none)
  else none

/-- A gateway that never responds (rate-limit/bad-request path). -/
def oracle_none : Gateway := fun _ _ => none

/-- Assistant content shaped like the closer's arguments (the legacy
compatibility path of workers/ai.py line 241). -/
def legacy_close_text : String :=
  "\x7b\"arguments\": \x7b\"solved\": true, \"explanation\": \"done\"\x7d\x7d"

/-- A gateway whose first response is plain text shaped like closer
arguments, with no tool calls. -/
def oracle_legacy : Gateway := fun ms _ =>
  if ms.length = 1 then some (assistant_text legacy_close_text) else none

/-- Whether the dispatcher processes this call as a successful closer call
(arguments parse, the call resolves to a tool named like the closer, its
handler runs and returns): exactly the condition under which
`_handle_tool_calls` takes the early `return messages` at line 107. -/
def closer_success (loads : String → Except String PyVal) (handlers : Handlers)
    (ts : List OpenAITool) (tc : OpenAIToolCall) : Bool :=
  match process_core loads handlers ts tc with
  | Except.ok (_, _, stop) => stop
  | Except.error _ => false

/-- The branch `if isinstance(v, str) and v.startswith("ENC") then replace
else recurse` agrees with the pointwise string map whenever the recursion
does. -/
theorem redact_branch_eq (v : PyVal) (hv : redact_enc_values v = map_strings v) :
    (if is_enc v then PyVal.str "redacted" else redact_enc_values v) = map_strings v := by
  cases v with
  | str s =>
      by_cases h : startswith s "ENC"
      · simp [is_enc, h, map_strings, redact_string]
      · simp [is_enc, h, hv]
  | int n => simpa [is_enc] using hv
  | bool b => simpa [is_enc] using hv
  | null => simpa [is_enc] using hv
  | list es => simpa [is_enc] using hv
  | dict fs => simpa [is_enc] using hv

mutual

theorem redact_enc_values_eq_map : ∀ v : PyVal, redact_enc_values v = map_strings v
  | PyVal.str s => by
      by_cases h : startswith s "ENC" <;> simp [redact_enc_values, map_strings, redact_string, h]
  | PyVal.int n => rfl
  | PyVal.bool b => rfl
  | PyVal.null => rfl
  | PyVal.list es => by
      simpa [redact_enc_values, map_strings] using redact_elems_eq_map es
  | PyVal.dict fs => by
      simpa [redact_enc_values, map_strings] using redact_fields_eq_map fs

theorem redact_elems_eq_map : ∀ es : PyElems, redact_elems es = map_strings_elems es
  | PyElems.nil => rfl
  | PyElems.cons v tl => by
      simp [redact_elems, map_strings_elems, redact_elems_eq_map tl,
        redact_branch_eq v (redact_enc_values_eq_map v)]

theorem redact_fields_eq_map : ∀ fs : PyFields, redact_fields fs = map_strings_fields fs
  | PyFields.nil => rfl
  | PyFields.cons k v tl => by
      simp [redact_fields, map_strings_fields, redact_fields_eq_map tl,
        redact_branch_eq v (redact_enc_values_eq_map v)]

end

/-- The pointwise rewrite never yields an "ENC"-prefixed string. -/
theorem redact_string_no_enc (s : String) : startswith (redact_string s) "ENC" = false := by
  by_cases h : startswith s "ENC"
  · simp [redact_string, h]
    decide
  · simp [redact_string, h]

mutual

theorem map_strings_no_enc :
    ∀ (v : PyVal) (s : String), s ∈ val_strings (map_strings v) → startswith s "ENC" = false
  | PyVal.str t, s, h => by
      simp [map_strings, val_strings] at h
      simpa [h] using redact_string_no_enc t
  | PyVal.int n, s, h => by simp [map_strings, val_strings] at h
  | PyVal.bool b, s, h => by simp [map_strings, val_strings] at h
  | PyVal.null, s, h => by simp [map_strings, val_strings] at h
  | PyVal.list es, s, h =>
      map_elems_no_enc es s (by simpa [map_strings, val_strings] using h)
  | PyVal.dict fs, s, h =>
      map_fields_no_enc fs s (by simpa [map_strings, val_strings] using h)

theorem map_elems_no_enc :
    ∀ (es : PyElems) (s : String), s ∈ elems_strings (map_strings_elems es) →
      startswith s "ENC" = false
  | PyElems.nil, s, h => by simp [map_strings_elems, elems_strings] at h
  | PyElems.cons v tl, s, h => by
      simp only [map_strings_elems, elems_strings, List.mem_append] at h
      cases h with
      | inl h => exact map_strings_no_enc v s h
      | inr h => exact map_elems_no_enc tl s h

theorem map_fields_no_enc :
    ∀ (fs : PyFields) (s : String), s ∈ fields_strings (map_strings_fields fs) →
      startswith s "ENC" = false
  | PyFields.nil, s, h => by simp [map_strings_fields, fields_strings] at h
  | PyFields.cons k v tl, s, h => by
      simp only [map_strings_fields, fields_strings, List.mem_append] at h
      cases h with
      | inl h => exact map_strings_no_enc v s h
      | inr h => exact map_fields_no_enc tl s h

end

/-- C10: for every value built from nested dictionaries, lists and strings,
the redaction walk `__redact_enc_values` equals the pointwise rewrite that
replaces every "ENC"-prefixed string value by the literal "redacted" and
leaves every other string and every non-string leaf (and all keys and the
shape) unchanged; consequently no string value reachable in the redacted
structure starts with "ENC". -/
theorem C10_redact_enc_values_correct (v : PyVal) :
    redact_enc_values v = map_strings v ∧
    ∀ s ∈ val_strings (redact_enc_values v), startswith s "ENC" = false := by
  refine ⟨redact_enc_values_eq_map v, fun s hs => ?_⟩
  rw [redact_enc_values_eq_map v] at hs
  exact map_strings_no_enc v s hs

/-- Witness for C10 at a concrete secret-bearing dict. -/
theorem C10_redact_enc_values_correct_witness :
    (redact_enc_values
        (PyVal.dict (PyFields.cons "password" (PyVal.str "ENCsecret") PyFields.nil)) =
      map_strings
        (PyVal.dict (PyFields.cons "password" (PyVal.str "ENCsecret") PyFields.nil))) ∧
    (startswith "redacted" "ENC" = false) :=
  ⟨(C10_redact_enc_values_correct
      (PyVal.dict (PyFields.cons "password" (PyVal.str "ENCsecret") PyFields.nil))).1,
   (C10_redact_enc_values_correct
      (PyVal.dict (PyFields.cons "password" (PyVal.str "ENCsecret") PyFields.nil))).2
     "redacted" (by simp [redact_enc_values, redact_fields, is_enc, val_strings, fields_strings]; decide)⟩

/-- C3 (code bug): a tool call whose JSON argument string fails to parse
does not produce a synthesized error message — `json.loads` at line 87 of
workers/ai.py stands outside the `try`, so `json.JSONDecodeError` escapes
the dispatcher. -/
theorem C3_malformed_args_escape_dispatcher :
    handle_tool_calls loads_demo repo_handlers tools [] [call_bad_args] =
      Except.error (PyExc.jsonDecodeError "Expecting value: line 1 column 1 (char 0)") := rfl

/-- C1 (code bug): an exception from inside the dispatcher propagates to
the caller of the session entrypoint — a session whose first model response
carries a tool call with an unparseable argument string makes `gpt_query`
raise instead of returning a summary. -/
theorem C1_dispatcher_exception_escapes_entrypoint :
    gpt_query oracle_bad_args loads_demo repo_handlers tools 5 "investigate" none [] =
      Except.error (PyExc.jsonDecodeError "Expecting value: line 1 column 1 (char 0)") := rfl

/-- C4 (code bug): a handler that raises `PromptToolError` (here the
in-repository router handler on an unknown category) does not get its
message text into a tool message — the `except PromptToolError` clause
evaluates `exc.model()` and `PromptToolError` has no `model` attribute, so
an `AttributeError` escapes the dispatcher. -/
theorem C4_tool_error_crashes_dispatcher :
    router_tool_handler (PyFields.cons "category" (PyVal.str "dns") PyFields.nil) =
      HandlerOutcome.toolError
        { message := "No such category found", tool_name := "route_tools",
          inputs := PyFields.cons "category" (PyVal.str "dns") PyFields.nil } ∧
    handle_tool_calls loads_demo repo_handlers tools [] [call_dns] =
      Except.error (PyExc.attributeError "'PromptToolError' object has no attribute 'model'") :=
  ⟨rfl, rfl⟩

/-- C2 (counterexample): in gated mode a router call whose handler returns
the kubernetes tool group neither merges that group into the tool set used
by the following model queries (both gateway calls of this session receive
the unchanged module-level list, which names only the router and the
closer) nor yields a short informational tool message — the appended tool
message is the generic failure text, because the dispatcher treats the
returned plain list like any pydantic result and `list.model_dump` raises. -/
theorem C2_router_group_not_merged :
    (gpt_query oracle_route_kube loads_demo repo_handlers tools 3 "alert" none []).map
        (fun r => r.calls.map GatewayCall.tools) = Except.ok [tools, tools] ∧
    tools.map (fun t => t.function.name) = ["route_intent", "finish_reasoning"] ∧
    router_tool_handler (PyFields.cons "category" (PyVal.str "kubernetes") PyFields.nil) =
      HandlerOutcome.ok (ToolResult.toolList kubernetes_tools) ∧
    (gpt_query oracle_route_kube loads_demo repo_handlers tools 3 "alert" none []).map
        (fun r => r.messages.map (fun m => m.content)) =
      Except.ok [some "alert", none,
        some "There was a problem calling the tool! AttributeError: 'list' object has no attribute 'model_dump'"] :=
  ⟨rfl, rfl, rfl, rfl⟩

/-- C7 (counterexample): a closer call with `solved=true` and an empty
explanation ends the session with `resolved=true` while the outcome's
explanation is the empty string — nothing enforces a non-empty explanation. -/
theorem C7_resolved_true_empty_explanation :
    (gpt_query oracle_finish_empty loads_demo repo_handlers tools 3 "alert" none []).map
        (fun r => r.summary.map (fun s => (s.resolved, s.data.map CaseSummary.explanation))) =
      Except.ok (some (true, some "")) := rfl

/-- C9 (code bug): the mutable default of `messages` is shared between
runs.  The first run (gateway never responds) leaves its developer and
user messages in the default list; a second run entered with that same
list skips its own system prompt and sends the first run's history — its
first gateway query contains the first run's user message "p1". -/
theorem C9_shared_default_leaks_history :
    (gpt_query oracle_none loads_demo repo_handlers tools 5 "p1" (some "sys") []).map
        RunResult.messages =
      Except.ok [{ role := "developer", content := some "sys" }, user_message "p1"] ∧
    (gpt_query oracle_none loads_demo repo_handlers tools 5 "p2" (some "sys")
        [{ role := "developer", content := some "sys" }, user_message "p1"]).map
        (fun r => r.calls.map GatewayCall.messages) =
      Except.ok [[{ role := "developer", content := some "sys" }, user_message "p1",
        user_message "p2"]] :=
  ⟨rfl, rfl⟩

/-- C5 (counterexample): two consecutive assistant turns with zero tool
calls do not end the session as EXHAUSTED with `resolved=false` — here the
first and second responses are plain text (no tool calls), yet the loop
issues a third gateway query (three gateway calls are logged) and the
session ends with `resolved=true` from the closer call of the third turn. -/
theorem C5_two_textual_turns_not_exhausted :
    oracle_two_textual [user_message "alert"] tools = some (assistant_text "thinking") ∧
    oracle_two_textual [user_message "alert", assistant_text "thinking"] tools =
      some (assistant_text "still thinking") ∧
    (assistant_text "thinking").tool_calls = none ∧
    (assistant_text "still thinking").tool_calls = none ∧
    (gpt_query oracle_two_textual loads_demo repo_handlers tools 3 "alert" none []).map
        (fun r => (r.summary.map OpenAIPromptSummary.resolved, r.calls.length)) =
      Except.ok (some true, 3) :=
  ⟨rfl, rfl, rfl, rfl, rfl⟩

/-- C8: the router tool handler returns exactly the registered group for
every category string naming one, and raises the structured
`PromptToolError` "No such category found" (not an unstructured crash) for
every other category string. -/
theorem C8_router_lookup (c : String) :
    (c ∈ tool_categories →
      router_tool_handler (PyFields.cons "category" (PyVal.str c) PyFields.nil) =
        HandlerOutcome.ok (ToolResult.toolList (route_to_tool_list c))) ∧
    (c ∉ tool_categories →
      router_tool_handler (PyFields.cons "category" (PyVal.str c) PyFields.nil) =
        HandlerOutcome.toolError
          { message := "No such category found", tool_name := "route_tools",
            inputs := PyFields.cons "category" (PyVal.str c) PyFields.nil }) := by
  constructor
  · intro h
    simp [router_tool_handler, PyFields.keys, PyFields.lookup, h]
  · intro h
    simp [router_tool_handler, PyFields.keys, PyFields.lookup, h]

/-- Witness for C8 at the known category "kubernetes" and the unknown
category "dns". -/
theorem C8_router_lookup_witness :
    router_tool_handler (PyFields.cons "category" (PyVal.str "kubernetes") PyFields.nil) =
      HandlerOutcome.ok (ToolResult.toolList (route_to_tool_list "kubernetes")) ∧
    router_tool_handler (PyFields.cons "category" (PyVal.str "dns") PyFields.nil) =
      HandlerOutcome.toolError
        { message := "No such category found", tool_name := "route_tools",
          inputs := PyFields.cons "category" (PyVal.str "dns") PyFields.nil } :=
  ⟨(C8_router_lookup "kubernetes").1 (by decide), (C8_router_lookup "dns").2 (by decide)⟩

/-- Appending a gateway-log entry whose tools are `ts` preserves the
all-entries-use-`ts` invariant. -/
theorem log_extend (log : List GatewayCall) (ts : List OpenAITool) (ms : List OpenAIMessage)
    (hlog : ∀ e ∈ log, e.tools = ts) :
    ∀ e ∈ log ++ [{ messages := ms, tools := ts }], e.tools = ts := by
  intro e he
  rcases List.mem_append.mp he with h1 | h1
  · exact hlog e h1
  · simp at h1
    subst h1
    rfl

/-- Every gateway call recorded by the loop uses the tool list the loop was
given: the loop never changes it. -/
theorem gpt_loop_tools_const (oracle : Gateway) (loads : String → Except String PyVal)
    (handlers : Handlers) (ts : List OpenAITool) :
    ∀ (fuel : Nat) (messages : List OpenAIMessage) (tool_calls : List OpenAIToolCall)
      (log : List GatewayCall) (r : RunResult),
      gpt_loop oracle loads handlers ts fuel messages tool_calls log = Except.ok r →
      (∀ e ∈ log, e.tools = ts) → ∀ e ∈ r.calls, e.tools = ts := by
  intro fuel
  induction fuel with
  | zero =>
    intro messages tool_calls log r h hlog
    simp only [gpt_loop] at h
    cases h
    exact hlog
  | succ fuel ih =>
    intro messages tool_calls log r h hlog
    simp only [gpt_loop] at h
    split at h
    · exact absurd h (by simp)
    · split at h
      · exact absurd h (by simp)
      · cases h
        exact hlog
      · split at h
        · cases h
          exact log_extend _ _ _ hlog
        · split at h
          · split at h
            · split at h
              · split at h
                · exact absurd h (by simp)
                · split at h
                  · exact absurd h (by simp)
                  · cases h
                    exact log_extend _ _ _ hlog
              · exact absurd h (by simp)
            · split at h
              · cases h
                exact log_extend _ _ _ (log_extend _ _ _ hlog)
              · exact ih _ _ _ _ h (log_extend _ _ _ (log_extend _ _ _ hlog))
          · exact ih _ _ _ _ h (log_extend _ _ _ hlog)

/-- C2 (amended): the dispatcher applies no special casing to the router
tool and the session has no mutable active-tool state — every gateway call
of a `gpt_query` run receives the same module-level tool list the session
started with; a router call's returned group is never merged in. -/
theorem C2_active_tool_set_constant (oracle : Gateway) (loads : String → Except String PyVal)
    (handlers : Handlers) (ts : List OpenAITool) (fuel : Nat) (prompt : String)
    (sp : Option String) (msgs : List OpenAIMessage) (r : RunResult)
    (h : gpt_query oracle loads handlers ts fuel prompt sp msgs = Except.ok r) :
    ∀ e ∈ r.calls, e.tools = ts := by
  simp only [gpt_query] at h
  split at h <;> split at h <;>
    first
      | (cases h
         intro e he
         simp at he
         subst he
         rfl)
      | exact gpt_loop_tools_const oracle loads handlers ts fuel _ _ _ r h
          (by intro e he; simp at he; subst he; rfl)

/-- Witness for C2's amended theorem at a concrete one-query run. -/
theorem C2_active_tool_set_constant_witness :
    ({ messages := [user_message "p"], tools := tools } : GatewayCall).tools = tools :=
  C2_active_tool_set_constant oracle_none loads_demo repo_handlers tools 3 "p" none []
    { summary := some { data := none, messages := [], resolved := false },
      messages := [user_message "p"],
      calls := [{ messages := [user_message "p"], tools := tools }] }
    rfl { messages := [user_message "p"], tools := tools } (by simp)

/-- A summary that the closer scan returns with `resolved=true` carries an
attached case summary with `solved=true` (the `resolved` field is computed
as `case_summary.solved if case_summary else False`). -/
theorem scan_resolved_has_outcome (messages : List OpenAIMessage) (sm : OpenAIPromptSummary)
    (h : scan_messages_for_closer messages = Except.ok (some sm))
    (hr : sm.resolved = true) : ∃ c, sm.data = some c ∧ c.solved = true := by
  unfold scan_messages_for_closer at h
  split at h
  · exact absurd h (by simp)
  · split at h
    · injection h with h1
      injection h1 with h2
      subst h2
      simp at hr
    · split at h
      · exact absurd h (by simp)
      · split at h
        · exact absurd h (by simp)
        · injection h with h1
          injection h1 with h2
          subst h2
          exact ⟨_, rfl, hr⟩

/-- Along every terminating loop path, a summary with `resolved=true`
carries an attached case summary with `solved=true`. -/
theorem gpt_loop_resolved_has_outcome (oracle : Gateway) (loads : String → Except String PyVal)
    (handlers : Handlers) (ts : List OpenAITool) :
    ∀ (fuel : Nat) (messages : List OpenAIMessage) (tool_calls : List OpenAIToolCall)
      (log : List GatewayCall) (r : RunResult) (s : OpenAIPromptSummary),
      gpt_loop oracle loads handlers ts fuel messages tool_calls log = Except.ok r →
      r.summary = some s → s.resolved = true → ∃ c, s.data = some c ∧ c.solved = true := by
  intro fuel
  induction fuel with
  | zero =>
    intro messages tool_calls log r s h hs hr
    simp only [gpt_loop] at h
    cases h
    simp at hs
  | succ fuel ih =>
    intro messages tool_calls log r s h hs hr
    simp only [gpt_loop] at h
    split at h
    · exact absurd h (by simp)
    · split at h
      · exact absurd h (by simp)
      · cases h
        rename_i sm hscan
        injection hs with hs2
        subst hs2
        exact scan_resolved_has_outcome _ _ hscan hr
      · split at h
        · cases h
          injection hs with hs2
          subst hs2
          simp at hr
        · split at h
          · split at h
            · split at h
              · split at h
                · exact absurd h (by simp)
                · split at h
                  · exact absurd h (by simp)
                  · cases h
                    injection hs with hs2
                    subst hs2
                    exact ⟨_, rfl, hr⟩
              · exact absurd h (by simp)
            · split at h
              · cases h
                injection hs with hs2
                subst hs2
                simp at hr
              · exact ih _ _ _ _ _ h hs hr
          · exact ih _ _ _ _ _ h hs hr

/-- C7 (amended): the summary returned by a terminating `gpt_query` run has
a boolean `resolved`, and whenever `resolved=true` an outcome (case
summary) is attached and its `solved` field is true; its explanation is
whatever string the closer call supplied (possibly empty). -/
theorem C7_resolved_implies_solved_outcome (oracle : Gateway)
    (loads : String → Except String PyVal) (handlers : Handlers) (ts : List OpenAITool)
    (fuel : Nat) (prompt : String) (sp : Option String) (msgs : List OpenAIMessage)
    (r : RunResult) (s : OpenAIPromptSummary)
    (h : gpt_query oracle loads handlers ts fuel prompt sp msgs = Except.ok r)
    (hs : r.summary = some s) (hr : s.resolved = true) :
    ∃ c, s.data = some c ∧ c.solved = true := by
  simp only [gpt_query] at h
  split at h <;> split at h <;>
    first
      | (cases h
         injection hs with hs2
         subst hs2
         simp at hr)
      | exact gpt_loop_resolved_has_outcome oracle loads handlers ts fuel _ _ _ r s h hs hr

/-- Witness for C7's amended theorem: the closer run with an empty
explanation resolves true and carries its solved outcome. -/
theorem C7_resolved_implies_solved_outcome_witness :
    ∃ c, ({ data := some { solved := true, explanation := "", missing_tools := some [] },
            messages := [], resolved := true } : OpenAIPromptSummary).data = some c ∧
      c.solved = true :=
  C7_resolved_implies_solved_outcome oracle_finish_empty loads_demo repo_handlers tools 3
    "alert" none []
    { summary := some
        { data := some { solved := true, explanation := "", missing_tools := some [] },
          messages := [], resolved := true },
      messages := [user_message "alert",
        { role := "assistant", content := none,
          tool_calls := some [{ call_finish_empty with
            result := some (ToolResult.caseSummary
              { solved := true, explanation := "", missing_tools := some [] }) }] },
        closer_bookkeeping_message call_finish_empty],
      calls := [{ messages := [user_message "alert"], tools := tools }] }
    { data := some { solved := true, explanation := "", missing_tools := some [] },
      messages := [], resolved := true }
    rfl rfl rfl

/-- C5 (amended): for a loop response carrying no tool calls, the loop
first tries to parse that response's own raw content as a literal
closer-shaped JSON object — on success the session terminates immediately
with that outcome, appending no corrective message; on JSON-decode failure
it appends exactly one corrective user message and queries the model again,
and when that second response also carries no tool calls the loop proceeds
to a further iteration (hence a further model query) rather than ending the
session: two consecutive tool-less turns do not by themselves end the
session. -/
theorem C5_tool_less_turns (oracle : Gateway) (loads : String → Except String PyVal)
    (handlers : Handlers) (ts : List OpenAITool) (fuel : Nat)
    (messages : List OpenAIMessage) (log : List GatewayCall) (resp : OpenAIMessage)
    (hscan : scan_messages_for_closer messages = Except.ok none)
    (hresp : oracle messages ts = some resp)
    (hnc : resp.tool_calls = none) :
    (∀ (fs : PyFields) (a : PyVal) (s : CaseSummary),
      loads (resp.content.getD "") = Except.ok (PyVal.dict fs) →
      fs.lookup "arguments" = some a →
      model_validate_case_summary a = Except.ok s →
      gpt_loop oracle loads handlers ts (fuel + 1) messages [] log =
        Except.ok
          { summary := some { data := some s, messages := [], resolved := s.solved },
            messages := messages ++ [resp, { role := "assistant", content := resp.content }],
            calls := log ++ [{ messages := messages, tools := ts }] }) ∧
    (∀ (err : String) (r2 : OpenAIMessage),
      loads (resp.content.getD "") = Except.error err →
      oracle (messages ++ [resp, corrective_user_message]) ts = some r2 →
      gpt_loop oracle loads handlers ts (fuel + 1) messages [] log =
        gpt_loop oracle loads handlers ts fuel
          (messages ++ [resp, corrective_user_message, r2]) (r2.tool_calls.getD [])
          (log ++ [{ messages := messages, tools := ts },
            { messages := messages ++ [resp, corrective_user_message], tools := ts }])) := by
  constructor
  · intro fs a s hl hargs hval
    simp [gpt_loop, handle_tool_calls, update_last_tool_calls, List.drop_length,
      hscan, hresp, hnc, hl, hargs, hval]
  · intro err r2 hl hr2
    simp [gpt_loop, handle_tool_calls, update_last_tool_calls, List.drop_length,
      hscan, hresp, hnc, hl, hr2]

/-- Witness for C5's amended theorem: the legacy-parse termination on a
first tool-less response, and the continuation equation after two tool-less
responses. -/
theorem C5_tool_less_turns_witness :
    (gpt_loop oracle_legacy loads_demo repo_handlers tools (0 + 1) [user_message "x"] [] [] =
      Except.ok
        { summary := some
            { data := some { solved := true, explanation := "done", missing_tools := none },
              messages := [], resolved := true },
          messages := [user_message "x", assistant_text legacy_close_text,
            { role := "assistant", content := (assistant_text legacy_close_text).content }],
          calls := [{ messages := [user_message "x"], tools := tools }] }) ∧
    (gpt_loop oracle_two_textual loads_demo repo_handlers tools (0 + 1)
        [user_message "alert", assistant_text "thinking"] [] [] =
      gpt_loop oracle_two_textual loads_demo repo_handlers tools 0
        ([user_message "alert", assistant_text "thinking"] ++
          [assistant_text "still thinking", corrective_user_message,
            assistant_with [call_finish] none])
        ((assistant_with [call_finish] none).tool_calls.getD [])
        ([] ++ [{ messages := [user_message "alert", assistant_text "thinking"], tools := tools },
          { messages := [user_message "alert", assistant_text "thinking"] ++
              [assistant_text "still thinking", corrective_user_message], tools := tools }])) :=
  ⟨(C5_tool_less_turns oracle_legacy loads_demo repo_handlers tools 0 [user_message "x"] []
      (assistant_text legacy_close_text) rfl rfl rfl).1
      (PyFields.cons "arguments" (PyVal.dict (PyFields.cons "solved" (PyVal.bool true)
        (PyFields.cons "explanation" (PyVal.str "done") PyFields.nil))) PyFields.nil)
      (PyVal.dict (PyFields.cons "solved" (PyVal.bool true)
        (PyFields.cons "explanation" (PyVal.str "done") PyFields.nil)))
      { solved := true, explanation := "done", missing_tools := none } rfl rfl rfl,
   (C5_tool_less_turns oracle_two_textual loads_demo repo_handlers tools 0
      [user_message "alert", assistant_text "thinking"] [] (assistant_text "still thinking")
      rfl rfl rfl).2 "Expecting value: line 1 column 1 (char 0)"
      (assistant_with [call_finish] none) rfl rfl⟩

/-- C6: in every dispatched batch, calls standing after the first
successfully-processed closer call are not executed: the dispatcher stops
right after it, the suffix of the batch is returned untouched (no result
attached, no handler run) and exactly one message was appended per call up
to and including the closer. -/
theorem C6_closer_stops_batch (loads : String → Except String PyVal) (handlers : Handlers)
    (ts : List OpenAITool) :
    ∀ (pre : List OpenAIToolCall) (msgs : List OpenAIMessage) (tc : OpenAIToolCall)
      (post : List OpenAIToolCall) (out : List OpenAIMessage × List OpenAIToolCall),
      handle_tool_calls loads handlers ts msgs (pre ++ tc :: post) = Except.ok out →
      (∀ c ∈ pre, closer_success loads handlers ts c = false) →
      closer_success loads handlers ts tc = true →
      out.2.drop (pre.length + 1) = post ∧ out.1.length = msgs.length + (pre.length + 1) := by
  intro pre
  induction pre with
  | nil =>
    intro msgs tc post out h hpre htc
    cases hpc : process_core loads handlers ts tc with
    | error e => simp [closer_success, hpc] at htc
    | ok trip =>
      obtain ⟨m, tc', stop⟩ := trip
      have hstop : stop = true := by simpa [closer_success, hpc] using htc
      subst hstop
      have hpt : process_tool_call loads handlers ts msgs tc = Except.ok (msgs ++ [m], tc', true) := by
        simp [process_tool_call, hpc]
      simp only [List.nil_append, handle_tool_calls, hpt] at h
      simp only [if_true] at h
      cases h
      constructor
      · simp
      · simp
  | cons c cs ih =>
    intro msgs tc post out h hpre htc
    have hc : closer_success loads handlers ts c = false := hpre c (by simp)
    cases hpc : process_core loads handlers ts c with
    | error e =>
      have hpt : process_tool_call loads handlers ts msgs c = Except.error e := by
        simp [process_tool_call, hpc]
      simp only [List.cons_append, handle_tool_calls, hpt] at h
      exact absurd h (by simp)
    | ok trip =>
      obtain ⟨m, c', stop⟩ := trip
      have hstop : stop = false := by simpa [closer_success, hpc] using hc
      subst hstop
      have hpt : process_tool_call loads handlers ts msgs c = Except.ok (msgs ++ [m], c', false) := by
        simp [process_tool_call, hpc]
      simp only [List.cons_append, handle_tool_calls, hpt, Bool.false_eq_true, if_false,
        List.append_eq] at h
      cases hrec : handle_tool_calls loads handlers ts (msgs ++ [m]) (cs ++ tc :: post) with
      | error e =>
        rw [hrec] at h
        exact absurd h (by simp)
      | ok out2 =>
        obtain ⟨ms', rest'⟩ := out2
        rw [hrec] at h
        cases h
        have := ih (msgs ++ [m]) tc post (ms', rest') hrec
          (fun d hd => hpre d (by simp [hd])) htc
        refine ⟨?_, ?_⟩
        · simpa [List.drop_succ_cons] using this.1
        · have h2 := this.2
          simp only [List.length_append, List.length_cons, List.length_nil] at h2 ⊢
          omega

/-- Witness for C6: a batch holding a successful closer call followed by a
call whose argument string would crash the dispatcher if executed; the
suffix comes back untouched and only the closer's bookkeeping message was
appended. -/
theorem C6_closer_stops_batch_witness :
    (([{ call_finish with result := some (ToolResult.caseSummary
          { solved := true, explanation := "done", missing_tools := some [] }) },
        call_bad_args] : List OpenAIToolCall).drop 1 = [call_bad_args]) ∧
    (([closer_bookkeeping_message call_finish] : List OpenAIMessage).length = 0 + 1) :=
  C6_closer_stops_batch loads_demo repo_handlers tools [] [] call_finish [call_bad_args]
    ([closer_bookkeeping_message call_finish],
      [{ call_finish with result := some (ToolResult.caseSummary
          { solved := true, explanation := "done", missing_tools := some [] }) },
        call_bad_args])
    rfl (by simp) rfl

end InfraAgent
